import Mathlib

/-
Verification of the feedback-bot core (Wildberries auto-answer bot).

Shallow embedding of:
  - internal/wbapi           : Feedback data type and envelope decoding
    (client.go, types in unnamed/part_001)
  - internal/service         : TemplateEngine (templates.go), Service.New and
    Service.HandleCycle (cycle.go)
  - internal/storage         : the multi-user processed-mark store
    (postgresStore in store.go and the multi-user sqliteStore in
    unnamed/part_005; both implement the same SQL semantics over a table
    with PRIMARY KEY (user_id, id))
  - internal/scheduler       : Scheduler.Shutdown (scheduler.go)

External effects (database rows, HTTP responses, context cancellation,
channel state) are modelled explicitly: the database is a list of rows, an
HTTP exchange is its decoded response plus status, cancellation and
per-call failures are oracle inputs, and the Go channel close used by the
scheduler is a state flag with the panic-on-double-close rule made
explicit.
-/

namespace FeedbackBot

/-- Feedback (wbapi types, unnamed/part_001): one customer review fetched
from the WB API. `createdDate` is kept as an integer timestamp. -/
structure Feedback where
  id : String
  text : String
  pros : String
  cons : String
  productValuation : Int
  createdDate : Int
  wasViewed : Bool
  isWarned : Bool
deriving DecidableEq, Repr

/- ------------------------------------------------------------------ -/
/- Template engine (internal/service/templates.go)                     -/
/- ------------------------------------------------------------------ -/

/-- TemplateEngine (templates.go): stores the two reply texts. -/
structure TemplateEngine where
  bad : String
  good : String
deriving DecidableEq, Repr

/-- Go strings.TrimSpace: removes leading and trailing whitespace,
modelled structurally over the character list so that it evaluates. -/
def trimSpace (s : String) : String :=
  String.mk
    (((s.data.dropWhile Char.isWhitespace).reverse.dropWhile
      Char.isWhitespace).reverse)

/-- NewTemplateEngine (templates.go lines 25-36): trims both texts and
panics (modelled as `Except.error`) when either is empty. -/
def NewTemplateEngine (bad good : String) : Except String TemplateEngine :=
  let b := trimSpace bad
  let g := trimSpace good
  if b = "" ∨ g = "" then
    .error ("template texts must be non-empty")
  else
    .ok { bad := b, good := g }

/-- TemplateEngine.Select (templates.go lines 41-46): rating >= 4 returns
the good text, anything else returns the bad text. -/
def TemplateEngine.Select (t : TemplateEngine) (rating : Int) : String :=
  if rating ≥ 4 then t.good else t.bad

/- ------------------------------------------------------------------ -/
/- Dedup store (internal/storage/store.go, unnamed/part_005)           -/
/- ------------------------------------------------------------------ -/

/-- One row of the `processed` table: PRIMARY KEY (user_id, id). -/
structure ProcessedRow where
  userId : Int
  id : String
deriving DecidableEq, Repr

/-- State of the `processed` table, shared model of the postgres store
(store.go) and the multi-user sqlite store (unnamed/part_005). -/
structure DedupStore where
  rows : List ProcessedRow
deriving DecidableEq, Repr

/-- Membership test on the primary key (user_id, id), as used by both the
SELECT in Exists and the uniqueness constraint behind Save. -/
def DedupStore.hasKey (t : DedupStore) (userID : Int) (id : String) : Bool :=
  t.rows.any (fun r => r.userId == userID && r.id == id)

/-- SQL conflict handling for an INSERT against PRIMARY KEY (user_id, id):
a plain INSERT errors on a duplicate key, while INSERT OR IGNORE /
ON CONFLICT DO NOTHING leaves the table unchanged and succeeds. -/
inductive ConflictPolicy
  | abortOnConflict
  | ignoreOnConflict
deriving DecidableEq, Repr

/-- INSERT INTO processed (user_id, id) under the given conflict policy. -/
def sqlInsert (policy : ConflictPolicy) (t : DedupStore) (userID : Int)
    (id : String) : Except String DedupStore :=
  if t.hasKey userID id then
    match policy with
    | .abortOnConflict =>
        .error ("UNIQUE constraint failed: processed.user_id, processed.id")
    | .ignoreOnConflict => .ok t
  else
    .ok { rows := t.rows ++ [{ userId := userID, id := id }] }

/-- postgresStore.Exists (store.go lines 97-106) and sqliteStore.Exists
(unnamed/part_005 lines 133-140): SELECT 1 FROM processed WHERE
user_id = ? AND id = ?. -/
def DedupStore.Exists (t : DedupStore) (userID : Int) (id : String) : Bool :=
  t.hasKey userID id

/-- postgresStore.Save (store.go lines 109-115, ON CONFLICT DO NOTHING) and
sqliteStore.Save (unnamed/part_005 lines 143-146, INSERT OR IGNORE). -/
def DedupStore.Save (t : DedupStore) (userID : Int) (id : String) :
    Except String DedupStore :=
  sqlInsert .ignoreOnConflict t userID id

/- ------------------------------------------------------------------ -/
/- Basic store lemmas                                                  -/
/- ------------------------------------------------------------------ -/

theorem hasKey_append_self (t : DedupStore) (uid : Int) (id : String) :
    DedupStore.hasKey { rows := t.rows ++ [{ userId := uid, id := id }] } uid id = true := by
  simp [DedupStore.hasKey]

theorem hasKey_append_other (t : DedupStore) (a b : Int) (id id2 : String)
    (hne : a ≠ b) :
    DedupStore.hasKey { rows := t.rows ++ [{ userId := a, id := id }] } b id2 =
      DedupStore.hasKey t b id2 := by
  simp only [DedupStore.hasKey, List.any_append, List.any_cons, List.any_nil]
  have : (a == b) = false := by
    simp [hne]
  simp [this]

/- ------------------------------------------------------------------ -/
/- Claim theorems: store                                               -/
/- ------------------------------------------------------------------ -/

/-- C4: for every integer rating r, TemplateEngine.Select returns one of the
two configured template strings — the good text when r >= 4 and the bad
text otherwise, including out-of-range ratings, and it is total (never
crashes). -/
theorem select_totality (t : TemplateEngine) (r : Int) :
    (TemplateEngine.Select t r = t.good ∨ TemplateEngine.Select t r = t.bad)
    ∧ (4 ≤ r → TemplateEngine.Select t r = t.good)
    ∧ (r < 4 → TemplateEngine.Select t r = t.bad) := by
  unfold TemplateEngine.Select
  by_cases h : r ≥ 4
  · simp [h]
  · have hlt : r < 4 := lt_of_not_ge h
    simp [h, hlt]

/-- Witness for C4 at concrete ratings 5 and 0. -/
theorem select_totality_witness :
    ((TemplateEngine.Select { bad := "Sorry!", good := "Thanks!" } 5 =
        "Thanks!")
      ∧ (TemplateEngine.Select { bad := "Sorry!", good := "Thanks!" } 0 =
        "Sorry!")) := by
  refine ⟨?_, ?_⟩
  · exact (select_totality { bad := "Sorry!", good := "Thanks!" } 5).2.1
      (by decide)
  · exact (select_totality { bad := "Sorry!", good := "Thanks!" } 0).2.2
      (by decide)

/-- C2: a ProcessedMark saved under tenant A is never visible through
Exists under a different tenant B: if B could not see (B, id) before, B
still cannot see it after a successful Save(A, id). -/
theorem dedup_tenant_isolation (t t1 : DedupStore) (A B : Int) (id : String)
    (hne : A ≠ B)
    (hB : DedupStore.Exists t B id = false)
    (hsave : DedupStore.Save t A id = .ok t1) :
    DedupStore.Exists t1 B id = false := by
  unfold DedupStore.Save sqlInsert at hsave
  cases hk : DedupStore.hasKey t A id with
  | true =>
      simp only [hk, if_true, reduceIte] at hsave
      cases hsave
      exact hB
  | false =>
      simp only [hk, Bool.false_eq_true, if_false, reduceIte,
        Except.ok.injEq] at hsave
      subst hsave
      rw [DedupStore.Exists, hasKey_append_other t A B id id hne]
      exact hB

/-- Witness for C2: tenant 7 saves review "r1"; tenant 8 does not see it. -/
theorem dedup_tenant_isolation_witness :
    DedupStore.Exists { rows := [{ userId := 7, id := "r1" }] } 8 ("r1") =
      false := by
  refine dedup_tenant_isolation { rows := [] } _ 7 8 ("r1") (by decide)
    (by decide) ?_
  rfl

/-- C5: Save is idempotent: saving the same (tenant, id) twice errors on
neither call — the duplicate insert is a no-op — and Exists returns true
after either call. -/
theorem dedup_save_idempotent (t : DedupStore) (uid : Int) (id : String) :
    ∃ t1, DedupStore.Save t uid id = .ok t1
      ∧ DedupStore.Exists t1 uid id = true
      ∧ DedupStore.Save t1 uid id = .ok t1 := by
  unfold DedupStore.Save sqlInsert DedupStore.Exists
  by_cases h : DedupStore.hasKey t uid id = true
  · exact ⟨t, by simp [h], h, by simp [h]⟩
  · have h2 : DedupStore.hasKey t uid id = false := by
      cases hk : DedupStore.hasKey t uid id
      · rfl
      · exact absurd hk h
    refine ⟨{ rows := t.rows ++ [{ userId := uid, id := id }] }, ?_, ?_, ?_⟩
    · simp [h2]
    · exact hasKey_append_self t uid id
    · simp [hasKey_append_self t uid id]

/-- Witness for C5 on an initially empty table. -/
theorem dedup_save_idempotent_witness :
    ∃ t1, DedupStore.Save { rows := [] } 7 ("r1") = .ok t1
      ∧ DedupStore.Exists t1 7 ("r1") = true
      ∧ DedupStore.Save t1 7 ("r1") = .ok t1 :=
  dedup_save_idempotent { rows := [] } 7 ("r1")

/- ------------------------------------------------------------------ -/
/- Processing cycle (internal/service/cycle.go)                        -/
/- ------------------------------------------------------------------ -/

/-- The three per-cycle counters of Service.HandleCycle. -/
structure Counts where
  answered : Nat
  skipped : Nat
  failed : Nat
deriving DecidableEq, Repr

/-- Oracle for the external effects observed while processing one review in
the HandleCycle loop: whether ctx.Done fires at the loop-top select
(cycle.go lines 68-73), the result of store.Exists (line 75), the error of
client.AnswerFeedback if any (line 87), and the error of store.Save if any
(line 94). -/
structure ItemEnv where
  ctxDone : Bool
  existsOutcome : Except String Bool
  answerOutcome : Option String
  saveOutcome : Option String

/-- Trace of external calls issued by the loop, indexed by the position of
the review in the fetched batch. -/
inductive Event
  | existsCheck (idx : Nat) (id : String)
  | answerCall (idx : Nat) (id : String) (text : String)
  | saveCall (idx : Nat) (id : String)
deriving DecidableEq, Repr

/-- Batch index carried by a trace event. -/
def Event.idx : Event → Nat
  | .existsCheck i _ => i
  | .answerCall i _ _ => i
  | .saveCall i _ => i

/-- The for-loop of Service.HandleCycle (cycle.go lines 67-101), one review
at a time, paired with its oracle. Mirrors the source exactly:
ctx.Done returns at once preserving the counters; an Exists error skips the
review with no count; exists=true increments skipped; otherwise the
template is selected and the answer submitted — failure increments failed;
on submission success Save is attempted and answered is incremented only
when Save returns no error. -/
def handleReviews (tpl : TemplateEngine) :
    List (Feedback × ItemEnv) → Nat → Counts → Counts × List Event
  | [], _, c => (c, [])
  | p :: rest, i, c =>
    let fb := p.1
    let env := p.2
    if env.ctxDone = true then
      (c, [])
    else
      match env.existsOutcome with
      | .error _ =>
          let r := handleReviews tpl rest (i + 1) c
          (r.1, Event.existsCheck i fb.id :: r.2)
      | .ok true =>
          let r := handleReviews tpl rest (i + 1)
            { c with skipped := c.skipped + 1 }
          (r.1, Event.existsCheck i fb.id :: r.2)
      | .ok false =>
          let text := tpl.Select fb.productValuation
          match env.answerOutcome with
          | some _ =>
              let r := handleReviews tpl rest (i + 1)
                { c with failed := c.failed + 1 }
              (r.1, Event.existsCheck i fb.id ::
                Event.answerCall i fb.id text :: r.2)
          | none =>
              let c1 := match env.saveOutcome with
                | some _ => c
                | none => { c with answered := c.answered + 1 }
              let r := handleReviews tpl rest (i + 1) c1
              (r.1, Event.existsCheck i fb.id ::
                Event.answerCall i fb.id text ::
                Event.saveCall i fb.id :: r.2)

/-- Oracle for one whole cycle: the outcome of client.FetchUnanswered
(cycle.go line 58), with each fetched review paired with its per-item
oracle. -/
structure CycleEnv where
  fetchOutcome : Except String (List (Feedback × ItemEnv))

/-- Service.HandleCycle (cycle.go lines 54-118): a fetch error returns at
once with no per-review work and no counts; otherwise the loop runs and
the final counts plus the total fetched are reported. -/
def HandleCycle (tpl : TemplateEngine) (env : CycleEnv) :
    Option (Counts × Nat) × List Event :=
  match env.fetchOutcome with
  | .error _ => (none, [])
  | .ok items =>
      let r := handleReviews tpl items 0
        { answered := 0, skipped := 0, failed := 0 }
      (some (r.1, items.length), r.2)

/-- Service (cycle.go lines 18-25): the fields the claims depend on. -/
structure Service where
  userID : Int
  templates : TemplateEngine
  take : Int
deriving DecidableEq, Repr

/-- Service constructor New (cycle.go lines 29-44): clamps take to 5000
when out of range and builds the template engine (whose panic on empty
templates is modelled as Except.error). -/
def Service.New (userID : Int) (badTpl goodTpl : String) (take : Int) :
    Except String Service :=
  let t := if take ≤ 0 ∨ take > 5000 then 5000 else take
  match NewTemplateEngine badTpl goodTpl with
  | .error e => .error e
  | .ok te => .ok { userID := userID, templates := te, take := t }

/- ------------------------------------------------------------------ -/
/- Cycle lemmas                                                        -/
/- ------------------------------------------------------------------ -/

/-- A review whose external calls all succeed and that is not yet marked
processed: no cancellation, Exists returns false, the answer submission
succeeds and the Save succeeds. -/
def ItemEnv.isSuccess (e : ItemEnv) : Prop :=
  e.ctxDone = false ∧ e.existsOutcome = .ok false
    ∧ e.answerOutcome = none ∧ e.saveOutcome = none

/-- Number of AnswerFeedback calls recorded in a trace. -/
def answerCallCount (evs : List Event) : Nat :=
  (evs.filter fun ev => match ev with
    | .answerCall _ _ _ => true
    | _ => false).length

theorem answerCallCount_nil : answerCallCount [] = 0 := rfl

theorem answerCallCount_cons_exists (i : Nat) (id : String) (evs : List Event) :
    answerCallCount (Event.existsCheck i id :: evs) = answerCallCount evs := by
  simp [answerCallCount]


theorem answerCallCount_cons_answer (i : Nat) (id text : String)
    (evs : List Event) :
    answerCallCount (Event.answerCall i id text :: evs) =
      answerCallCount evs + 1 := by
  simp [answerCallCount, List.filter]

theorem answerCallCount_cons_save (i : Nat) (id : String) (evs : List Event) :
    answerCallCount (Event.saveCall i id :: evs) = answerCallCount evs := by
  simp [answerCallCount]

theorem answerCallCount_append (l1 l2 : List Event) :
    answerCallCount (l1 ++ l2) = answerCallCount l1 + answerCallCount l2 := by
  simp [answerCallCount]

/- Step lemmas: one unfolding of the HandleCycle loop body per branch of
cycle.go lines 67-101. -/

/-- A cancelled review stops the loop at once, preserving the counters and
issuing no further calls (cycle.go lines 68-73). -/
theorem handleReviews_cancelled (tpl : TemplateEngine)
    (p : Feedback × ItemEnv) (rest : List (Feedback × ItemEnv)) (i : Nat)
    (c : Counts) (h : p.2.ctxDone = true) :
    handleReviews tpl (p :: rest) i c = (c, []) := by
  simp [handleReviews, h]

/-- A store.Exists error skips the review without touching any counter
(cycle.go lines 76-80). -/
theorem handleReviews_step_existsErr (tpl : TemplateEngine)
    (p : Feedback × ItemEnv) (rest : List (Feedback × ItemEnv)) (i : Nat)
    (c : Counts) (e : String)
    (h : p.2.ctxDone = false) (hex : p.2.existsOutcome = .error e) :
    handleReviews tpl (p :: rest) i c =
      ((handleReviews tpl rest (i + 1) c).1,
        Event.existsCheck i p.1.id ::
          (handleReviews tpl rest (i + 1) c).2) := by
  simp [handleReviews, h, hex]

/-- An already processed review increments skipped (cycle.go lines 81-84). -/
theorem handleReviews_step_skip (tpl : TemplateEngine)
    (p : Feedback × ItemEnv) (rest : List (Feedback × ItemEnv)) (i : Nat)
    (c : Counts)
    (h : p.2.ctxDone = false) (hex : p.2.existsOutcome = .ok true) :
    handleReviews tpl (p :: rest) i c =
      ((handleReviews tpl rest (i + 1)
          { c with skipped := c.skipped + 1 }).1,
        Event.existsCheck i p.1.id ::
          (handleReviews tpl rest (i + 1)
            { c with skipped := c.skipped + 1 }).2) := by
  simp [handleReviews, h, hex]

/-- A failed answer submission increments failed and moves on
(cycle.go lines 87-92). -/
theorem handleReviews_step_answerFail (tpl : TemplateEngine)
    (p : Feedback × ItemEnv) (rest : List (Feedback × ItemEnv)) (i : Nat)
    (c : Counts) (e : String)
    (h : p.2.ctxDone = false) (hex : p.2.existsOutcome = .ok false)
    (hans : p.2.answerOutcome = some e) :
    handleReviews tpl (p :: rest) i c =
      ((handleReviews tpl rest (i + 1)
          { c with failed := c.failed + 1 }).1,
        Event.existsCheck i p.1.id ::
          Event.answerCall i p.1.id (tpl.Select p.1.productValuation) ::
          (handleReviews tpl rest (i + 1)
            { c with failed := c.failed + 1 }).2) := by
  simp [handleReviews, h, hex, hans]

/-- A successful submission whose Save fails leaves every counter
unchanged (cycle.go lines 94-96: answered is only incremented in the
else branch). -/
theorem handleReviews_step_saveFail (tpl : TemplateEngine)
    (p : Feedback × ItemEnv) (rest : List (Feedback × ItemEnv)) (i : Nat)
    (c : Counts) (e : String)
    (h : p.2.ctxDone = false) (hex : p.2.existsOutcome = .ok false)
    (hans : p.2.answerOutcome = none) (hsave : p.2.saveOutcome = some e) :
    handleReviews tpl (p :: rest) i c =
      ((handleReviews tpl rest (i + 1) c).1,
        Event.existsCheck i p.1.id ::
          Event.answerCall i p.1.id (tpl.Select p.1.productValuation) ::
          Event.saveCall i p.1.id ::
          (handleReviews tpl rest (i + 1) c).2) := by
  simp [handleReviews, h, hex, hans, hsave]

/-- A successful submission whose Save succeeds increments answered
(cycle.go lines 97-100). -/
theorem handleReviews_step_success (tpl : TemplateEngine)
    (p : Feedback × ItemEnv) (rest : List (Feedback × ItemEnv)) (i : Nat)
    (c : Counts)
    (h : p.2.ctxDone = false) (hex : p.2.existsOutcome = .ok false)
    (hans : p.2.answerOutcome = none) (hsave : p.2.saveOutcome = none) :
    handleReviews tpl (p :: rest) i c =
      ((handleReviews tpl rest (i + 1)
          { c with answered := c.answered + 1 }).1,
        Event.existsCheck i p.1.id ::
          Event.answerCall i p.1.id (tpl.Select p.1.productValuation) ::
          Event.saveCall i p.1.id ::
          (handleReviews tpl rest (i + 1)
            { c with answered := c.answered + 1 }).2) := by
  simp [handleReviews, h, hex, hans, hsave]

/-- When no review of the first segment is cancelled, the loop runs the
first segment and continues into the second with the accumulated counters;
the traces concatenate. -/
theorem handleReviews_append (tpl : TemplateEngine)
    (L1 L2 : List (Feedback × ItemEnv)) (i : Nat) (c : Counts)
    (h : ∀ p ∈ L1, p.2.ctxDone = false) :
    handleReviews tpl (L1 ++ L2) i c =
      ((handleReviews tpl L2 (i + L1.length)
          (handleReviews tpl L1 i c).1).1,
        (handleReviews tpl L1 i c).2 ++
          (handleReviews tpl L2 (i + L1.length)
            (handleReviews tpl L1 i c).1).2) := by
  induction L1 generalizing i c with
  | nil => simp [handleReviews]
  | cons p L1 ih =>
      have hp : p.2.ctxDone = false := h p (List.mem_cons_self _ _)
      have h1 : ∀ q ∈ L1, q.2.ctxDone = false :=
        fun q hq => h q (List.mem_cons_of_mem _ hq)
      have hlen : i + 1 + L1.length = i + (L1.length + 1) := by omega
      rcases hex : p.2.existsOutcome with e | b
      · rw [List.cons_append,
          handleReviews_step_existsErr tpl p (L1 ++ L2) i c e hp hex,
          handleReviews_step_existsErr tpl p L1 i c e hp hex,
          ih (i + 1) c h1]
        simp [hlen]
      · cases b with
        | true =>
            rw [List.cons_append,
              handleReviews_step_skip tpl p (L1 ++ L2) i c hp hex,
              handleReviews_step_skip tpl p L1 i c hp hex,
              ih (i + 1) _ h1]
            simp [hlen]
        | false =>
            rcases hans : p.2.answerOutcome with _ | e2
            · rcases hsave : p.2.saveOutcome with _ | e3
              · rw [List.cons_append,
                  handleReviews_step_success tpl p (L1 ++ L2) i c
                    hp hex hans hsave,
                  handleReviews_step_success tpl p L1 i c hp hex hans hsave,
                  ih (i + 1) _ h1]
                simp [hlen]
              · rw [List.cons_append,
                  handleReviews_step_saveFail tpl p (L1 ++ L2) i c e3
                    hp hex hans hsave,
                  handleReviews_step_saveFail tpl p L1 i c e3
                    hp hex hans hsave,
                  ih (i + 1) c h1]
                simp [hlen]
            · rw [List.cons_append,
                handleReviews_step_answerFail tpl p (L1 ++ L2) i c e2
                  hp hex hans,
                handleReviews_step_answerFail tpl p L1 i c e2 hp hex hans,
                ih (i + 1) _ h1]
              simp [hlen]

/-- A run over all-successful unprocessed reviews answers every review and
issues exactly one AnswerFeedback call per review. -/
theorem handleReviews_success (tpl : TemplateEngine)
    (L : List (Feedback × ItemEnv)) (i : Nat) (c : Counts)
    (h : ∀ p ∈ L, ItemEnv.isSuccess p.2) :
    (handleReviews tpl L i c).1 =
      { answered := c.answered + L.length, skipped := c.skipped,
        failed := c.failed }
    ∧ answerCallCount (handleReviews tpl L i c).2 = L.length := by
  induction L generalizing i c with
  | nil => exact ⟨by simp [handleReviews], rfl⟩
  | cons p L ih =>
      obtain ⟨hp1, hp2, hp3, hp4⟩ := h p (List.mem_cons_self _ _)
      have h1 : ∀ q ∈ L, ItemEnv.isSuccess q.2 :=
        fun q hq => h q (List.mem_cons_of_mem _ hq)
      have hrec := ih (i + 1) { c with answered := c.answered + 1 } h1
      rw [handleReviews_step_success tpl p L i c hp1 hp2 hp3 hp4]
      refine ⟨?_, ?_⟩
      · rw [hrec.1]
        simp [List.length_cons]
        omega
      · rw [answerCallCount_cons_exists, answerCallCount_cons_answer,
          answerCallCount_cons_save, hrec.2]
        simp [List.length_cons]

/-- Every event recorded by the loop concerns a review of the processed
batch: its index is below the starting index plus the batch length. -/
theorem handleReviews_idx_lt (tpl : TemplateEngine)
    (L : List (Feedback × ItemEnv)) (i : Nat) (c : Counts) :
    ∀ ev ∈ (handleReviews tpl L i c).2, ev.idx < i + L.length := by
  induction L generalizing i c with
  | nil => simp [handleReviews]
  | cons p L ih =>
      intro ev hev
      rcases hdone : p.2.ctxDone with _ | _
      · rcases hex : p.2.existsOutcome with e | b
        · rw [handleReviews_step_existsErr tpl p L i c e hdone hex] at hev
          simp only [List.mem_cons] at hev
          rcases hev with rfl | hev
          · simp only [Event.idx, List.length_cons]
            omega
          · have := ih (i + 1) c ev hev
            simp only [List.length_cons]
            omega
        · cases b with
          | true =>
              rw [handleReviews_step_skip tpl p L i c hdone hex] at hev
              simp only [List.mem_cons] at hev
              rcases hev with rfl | hev
              · simp only [Event.idx, List.length_cons]
                omega
              · have := ih (i + 1) { c with skipped := c.skipped + 1 } ev hev
                simp only [List.length_cons]
                omega
          | false =>
              rcases hans : p.2.answerOutcome with _ | e2
              · rcases hsave : p.2.saveOutcome with _ | e3
                · rw [handleReviews_step_success tpl p L i c
                    hdone hex hans hsave] at hev
                  simp only [List.mem_cons] at hev
                  rcases hev with rfl | rfl | rfl | hev
                  · simp only [Event.idx, List.length_cons]
                    omega
                  · simp only [Event.idx, List.length_cons]
                    omega
                  · simp only [Event.idx, List.length_cons]
                    omega
                  · have := ih (i + 1)
                      { c with answered := c.answered + 1 } ev hev
                    simp only [List.length_cons]
                    omega
                · rw [handleReviews_step_saveFail tpl p L i c e3
                    hdone hex hans hsave] at hev
                  simp only [List.mem_cons] at hev
                  rcases hev with rfl | rfl | rfl | hev
                  · simp only [Event.idx, List.length_cons]
                    omega
                  · simp only [Event.idx, List.length_cons]
                    omega
                  · simp only [Event.idx, List.length_cons]
                    omega
                  · have := ih (i + 1) c ev hev
                    simp only [List.length_cons]
                    omega
              · rw [handleReviews_step_answerFail tpl p L i c e2
                  hdone hex hans] at hev
                simp only [List.mem_cons] at hev
                rcases hev with rfl | rfl | hev
                · simp only [Event.idx, List.length_cons]
                  omega
                · simp only [Event.idx, List.length_cons]
                  omega
                · have := ih (i + 1) { c with failed := c.failed + 1 } ev hev
                  simp only [List.length_cons]
                  omega
      · rw [handleReviews_cancelled tpl p L i c hdone] at hev
        simp at hev

/- ------------------------------------------------------------------ -/
/- Concrete fixtures for witnesses and counterexamples                 -/
/- ------------------------------------------------------------------ -/

/-- A five-star review. -/
def fbGood : Feedback :=
  { id := "id1", text := "", pros := "", cons := "", productValuation := 5,
    createdDate := 0, wasViewed := false, isWarned := false }

/-- A two-star review. -/
def fbBad : Feedback :=
  { id := "id2", text := "", pros := "", cons := "", productValuation := 2,
    createdDate := 0, wasViewed := false, isWarned := false }

/-- Per-item oracle where every call succeeds and the review is new. -/
def okItem : ItemEnv :=
  { ctxDone := false, existsOutcome := .ok false, answerOutcome := none,
    saveOutcome := none }

/-- Per-item oracle where the answer submission fails. -/
def answerFailItem : ItemEnv :=
  { ctxDone := false, existsOutcome := .ok false,
    answerOutcome := some ("wb api http 500"), saveOutcome := none }

/-- Per-item oracle where the submission succeeds but Save errors. -/
def saveFailItem : ItemEnv :=
  { ctxDone := false, existsOutcome := .ok false, answerOutcome := none,
    saveOutcome := some ("db closed") }

/-- Per-item oracle where cancellation fires before the review. -/
def cancelItem : ItemEnv :=
  { ctxDone := true, existsOutcome := .ok false, answerOutcome := none,
    saveOutcome := none }

/-- A fixed template engine for concrete runs. -/
def tplW : TemplateEngine := { bad := "Sorry!", good := "Thanks!" }

/- ------------------------------------------------------------------ -/
/- Claim theorems: processing cycle                                    -/
/- ------------------------------------------------------------------ -/

/-- C7: a fetch failure aborts the cycle at once: no Exists, Save or
AnswerFeedback call is issued (empty trace) and no counts are produced. -/
theorem cycle_fetch_failure_aborts (tpl : TemplateEngine) (e : String) :
    HandleCycle tpl { fetchOutcome := .error e } = (none, []) := rfl

/-- Witness for C7 at a concrete fetch error. -/
theorem cycle_fetch_failure_aborts_witness :
    HandleCycle tplW { fetchOutcome := .error ("network down") } =
      (none, []) :=
  cycle_fetch_failure_aborts tplW ("network down")

/-- Singleton all-success batch segment used by concrete witnesses. -/
def wA : List (Feedback × ItemEnv) := [(fbGood, okItem)]

/-- Empty batch segment used by concrete witnesses. -/
def wE : List (Feedback × ItemEnv) := []

/-- Concrete review whose submission fails. -/
def wxFail : Feedback × ItemEnv := (fbBad, answerFailItem)

/-- Concrete review at which cancellation fires. -/
def wxCancel : Feedback × ItemEnv := (fbBad, cancelItem)

/-- Concrete review whose Save fails after a successful submission. -/
def wxSaveFail : Feedback × ItemEnv := (fbGood, saveFailItem)

/-- C3: when the answer submission fails for exactly one review of a batch
of otherwise-successful unprocessed reviews, the cycle still attempts every
review (one AnswerFeedback call per review, batch not aborted) and reports
failed = 1 and answered = N - 1. -/
theorem cycle_partial_failure_tolerance (tpl : TemplateEngine)
    (A B : List (Feedback × ItemEnv)) (x : Feedback × ItemEnv) (e : String)
    (hA : ∀ p ∈ A, ItemEnv.isSuccess p.2)
    (hB : ∀ p ∈ B, ItemEnv.isSuccess p.2)
    (hx1 : x.2.ctxDone = false) (hx2 : x.2.existsOutcome = .ok false)
    (hx3 : x.2.answerOutcome = some e) :
    (HandleCycle tpl { fetchOutcome := .ok (A ++ x :: B) }).1 =
      some ({ answered := A.length + B.length, skipped := 0, failed := 1 },
        A.length + B.length + 1)
    ∧ answerCallCount
        (HandleCycle tpl { fetchOutcome := .ok (A ++ x :: B) }).2 =
      A.length + B.length + 1 := by
  have hAdone : ∀ p ∈ A, p.2.ctxDone = false := fun p hp => (hA p hp).1
  simp only [HandleCycle]
  rw [handleReviews_append tpl A (x :: B) 0
    { answered := 0, skipped := 0, failed := 0 } hAdone]
  rw [handleReviews_step_answerFail tpl x B (0 + A.length)
    (handleReviews tpl A 0
      { answered := 0, skipped := 0, failed := 0 }).1 e hx1 hx2 hx3]
  obtain ⟨hA1, hA2⟩ := handleReviews_success tpl A 0
    { answered := 0, skipped := 0, failed := 0 } hA
  obtain ⟨hB1, hB2⟩ := handleReviews_success tpl B (0 + A.length + 1)
    { (handleReviews tpl A 0
        { answered := 0, skipped := 0, failed := 0 }).1 with
      failed := (handleReviews tpl A 0
        { answered := 0, skipped := 0, failed := 0 }).1.failed + 1 } hB
  refine ⟨?_, ?_⟩
  · simp only [Option.some.injEq, Prod.mk.injEq]
    refine ⟨?_, ?_⟩
    · rw [hB1, hA1]
      simp [Counts.mk.injEq]
    · simp only [List.length_append, List.length_cons]
      omega
  · rw [answerCallCount_append, hA2, answerCallCount_cons_exists,
      answerCallCount_cons_answer, hB2]
    omega

/-- Witness for C3 with a three-review batch whose middle submission
fails. -/
theorem cycle_partial_failure_tolerance_witness :
    (HandleCycle tplW { fetchOutcome := .ok (wA ++ wxFail :: wA) }).1 =
      some ({ answered := wA.length + wA.length, skipped := 0, failed := 1 },
        wA.length + wA.length + 1)
    ∧ answerCallCount
        (HandleCycle tplW { fetchOutcome := .ok (wA ++ wxFail :: wA) }).2 =
      wA.length + wA.length + 1 := by
  refine cycle_partial_failure_tolerance tplW wA wA wxFail ("wb api http 500")
    ?_ ?_ rfl rfl rfl
  · intro p hp
    simp only [wA, List.mem_singleton] at hp
    subst hp
    exact ⟨rfl, rfl, rfl, rfl⟩
  · intro p hp
    simp only [wA, List.mem_singleton] at hp
    subst hp
    exact ⟨rfl, rfl, rfl, rfl⟩

/-- C6: when cancellation is signalled before review k, the cycle stops
there: its result equals the run over the first k-1 reviews alone, and no
recorded call concerns review k or any later review. -/
theorem cycle_cancellation_stops (tpl : TemplateEngine)
    (A B : List (Feedback × ItemEnv)) (x : Feedback × ItemEnv)
    (hA : ∀ p ∈ A, p.2.ctxDone = false) (hx : x.2.ctxDone = true) :
    HandleCycle tpl { fetchOutcome := .ok (A ++ x :: B) } =
      (some ((handleReviews tpl A 0
          { answered := 0, skipped := 0, failed := 0 }).1,
        (A ++ x :: B).length),
        (handleReviews tpl A 0
          { answered := 0, skipped := 0, failed := 0 }).2)
    ∧ ∀ ev ∈ (HandleCycle tpl { fetchOutcome := .ok (A ++ x :: B) }).2,
        ev.idx < A.length := by
  have hrun : HandleCycle tpl { fetchOutcome := .ok (A ++ x :: B) } =
      (some ((handleReviews tpl A 0
          { answered := 0, skipped := 0, failed := 0 }).1,
        (A ++ x :: B).length),
        (handleReviews tpl A 0
          { answered := 0, skipped := 0, failed := 0 }).2) := by
    simp only [HandleCycle]
    rw [handleReviews_append tpl A (x :: B) 0
      { answered := 0, skipped := 0, failed := 0 } hA,
      handleReviews_cancelled tpl x B (0 + A.length) _ hx]
    simp
  refine ⟨hrun, ?_⟩
  intro ev hev
  rw [hrun] at hev
  have hlt := handleReviews_idx_lt tpl A 0
    { answered := 0, skipped := 0, failed := 0 } ev hev
  omega

/-- Witness for C6: one successful review, then a cancelled one, then one
more; the run equals the one-review run and every recorded call concerns
review 0. -/
theorem cycle_cancellation_stops_witness :
    HandleCycle tplW { fetchOutcome := .ok (wA ++ wxCancel :: wA) } =
      (some ((handleReviews tplW wA 0
          { answered := 0, skipped := 0, failed := 0 }).1,
        (wA ++ wxCancel :: wA).length),
        (handleReviews tplW wA 0
          { answered := 0, skipped := 0, failed := 0 }).2)
    ∧ ∀ ev ∈ (HandleCycle tplW
        { fetchOutcome := .ok (wA ++ wxCancel :: wA) }).2,
        ev.idx < wA.length := by
  refine cycle_cancellation_stops tplW wA wA wxCancel ?_ rfl
  intro p hp
  simp only [wA, List.mem_singleton] at hp
  subst hp
  rfl

/-- C1 counterexample: one fetched review whose submission succeeds and
whose Save errors; HandleCycle reports answered = 0, so the final answered
count does not include the review, refuting the claim. -/
theorem cycle_save_failure_counterexample :
    saveFailItem.answerOutcome = none
    ∧ saveFailItem.saveOutcome = some ("db closed")
    ∧ HandleCycle tplW { fetchOutcome := .ok [(fbGood, saveFailItem)] } =
        (some ({ answered := 0, skipped := 0, failed := 0 }, 1),
          [Event.existsCheck 0 ("id1"),
            Event.answerCall 0 ("id1") ("Thanks!"),
            Event.saveCall 0 ("id1")])
    ∧ ¬ (∃ c total t,
          HandleCycle tplW { fetchOutcome := .ok [(fbGood, saveFailItem)] } =
            (some (c, total), t)
          ∧ 1 ≤ c.answered) := by
  refine ⟨rfl, rfl, rfl, ?_⟩
  rintro ⟨c, total, t, heq, hc⟩
  have h0 : HandleCycle tplW { fetchOutcome := .ok [(fbGood, saveFailItem)] } =
      (some ({ answered := 0, skipped := 0, failed := 0 }, 1),
        [Event.existsCheck 0 ("id1"),
          Event.answerCall 0 ("id1") ("Thanks!"),
          Event.saveCall 0 ("id1")]) := rfl
  rw [h0] at heq
  simp only [Prod.mk.injEq, Option.some.injEq] at heq
  obtain ⟨⟨hc1, -⟩, -⟩ := heq
  rw [← hc1] at hc
  simp at hc

/-- C1 amended: when the answer submission succeeds but Save errors, the
cycle does not count the review as answered — the final answered count
excludes it (the review appears in no counter), although the submission
itself was issued. -/
theorem cycle_save_failure_not_answered (tpl : TemplateEngine)
    (A B : List (Feedback × ItemEnv)) (x : Feedback × ItemEnv) (e : String)
    (hA : ∀ p ∈ A, ItemEnv.isSuccess p.2)
    (hB : ∀ p ∈ B, ItemEnv.isSuccess p.2)
    (hx1 : x.2.ctxDone = false) (hx2 : x.2.existsOutcome = .ok false)
    (hx3 : x.2.answerOutcome = none) (hx4 : x.2.saveOutcome = some e) :
    (HandleCycle tpl { fetchOutcome := .ok (A ++ x :: B) }).1 =
      some ({ answered := A.length + B.length, skipped := 0, failed := 0 },
        A.length + B.length + 1)
    ∧ answerCallCount
        (HandleCycle tpl { fetchOutcome := .ok (A ++ x :: B) }).2 =
      A.length + B.length + 1 := by
  have hAdone : ∀ p ∈ A, p.2.ctxDone = false := fun p hp => (hA p hp).1
  simp only [HandleCycle]
  rw [handleReviews_append tpl A (x :: B) 0
    { answered := 0, skipped := 0, failed := 0 } hAdone]
  rw [handleReviews_step_saveFail tpl x B (0 + A.length)
    (handleReviews tpl A 0
      { answered := 0, skipped := 0, failed := 0 }).1 e hx1 hx2 hx3 hx4]
  obtain ⟨hA1, hA2⟩ := handleReviews_success tpl A 0
    { answered := 0, skipped := 0, failed := 0 } hA
  obtain ⟨hB1, hB2⟩ := handleReviews_success tpl B (0 + A.length + 1)
    (handleReviews tpl A 0
      { answered := 0, skipped := 0, failed := 0 }).1 hB
  refine ⟨?_, ?_⟩
  · simp only [Option.some.injEq, Prod.mk.injEq]
    refine ⟨?_, ?_⟩
    · rw [hB1, hA1]
      simp [Counts.mk.injEq]
    · simp only [List.length_append, List.length_cons]
      omega
  · rw [answerCallCount_append, hA2, answerCallCount_cons_exists,
      answerCallCount_cons_answer, answerCallCount_cons_save, hB2]
    omega

/-- Witness for the amended C1: batch of one review whose Save fails after
a successful submission; answered = 0 and exactly one submission
occurred. -/
theorem cycle_save_failure_not_answered_witness :
    (HandleCycle tplW { fetchOutcome := .ok (wE ++ wxSaveFail :: wE) }).1 =
      some ({ answered := wE.length + wE.length, skipped := 0, failed := 0 },
        wE.length + wE.length + 1)
    ∧ answerCallCount
        (HandleCycle tplW { fetchOutcome := .ok (wE ++ wxSaveFail :: wE) }).2 =
      wE.length + wE.length + 1 := by
  refine cycle_save_failure_not_answered tplW wE wE wxSaveFail ("db closed")
    ?_ ?_ rfl rfl rfl rfl
  · intro p hp
    simp [wE] at hp
  · intro p hp
    simp [wE] at hp

/- ------------------------------------------------------------------ -/
/- Scheduler (internal/scheduler/scheduler.go)                         -/
/- ------------------------------------------------------------------ -/

/-- Scheduler state (scheduler.go lines 19-24): the tick interval in
nanoseconds and whether the stop channel has been closed. -/
structure SchedulerState where
  interval : Int
  stopClosed : Bool
deriving DecidableEq, Repr

/-- Scheduler constructor New (scheduler.go lines 28-41): an interval below
one second (1e9 ns) is clamped to one second; the stop channel starts
open. -/
def Scheduler.New (interval : Int) : SchedulerState :=
  { interval := if interval < 1000000000 then 1000000000 else interval,
    stopClosed := false }

/-- Go close(ch): closing an already-closed channel panics, modelled as an
error; closing an open channel succeeds. -/
def chanClose (closed : Bool) : Except String Bool :=
  if closed then .error ("close of closed channel") else .ok true

/-- Scheduler.Shutdown (scheduler.go lines 70-77): the select reads from
stopCh — which succeeds exactly when the channel is closed, making the
call a no-op — and otherwise takes the default branch and closes the
channel. -/
def Scheduler.Shutdown (s : SchedulerState) : Except String SchedulerState :=
  if s.stopClosed then
    .ok s
  else
    match chanClose s.stopClosed with
    | .error e => .error e
    | .ok _ => .ok { s with stopClosed := true }

/-- n sequential calls to Scheduler.Shutdown, propagating any panic. -/
def Scheduler.shutdownTimes : Nat → SchedulerState → Except String SchedulerState
  | 0, s => .ok s
  | n + 1, s =>
      match Scheduler.Shutdown s with
      | .error e => .error e
      | .ok s1 => Scheduler.shutdownTimes n s1

/-- The select in Run (scheduler.go lines 54-65) observes the shutdown
signal exactly when stopCh is closed. -/
def runObservesStop (s : SchedulerState) : Bool := s.stopClosed

theorem shutdownTimes_closed (s : SchedulerState) (h : s.stopClosed = true)
    (n : Nat) : Scheduler.shutdownTimes n s = .ok s := by
  induction n with
  | zero => rfl
  | succ n ih => simp [Scheduler.shutdownTimes, Scheduler.Shutdown, h, ih]

/-- C9: for every scheduler state and every n >= 1, n calls to Shutdown
behave like one: the first call succeeds (no panic) and leaves the stop
channel closed — which the Run loop observes as the stop signal — every
further call is a no-op returning the same state, and the n-fold
sequential composition ends in that same state with no panic. -/
theorem shutdown_idempotent (s : SchedulerState) (n : Nat) (h : 1 ≤ n) :
    ∃ s1, Scheduler.Shutdown s = .ok s1
      ∧ s1.stopClosed = true
      ∧ runObservesStop s1 = true
      ∧ Scheduler.Shutdown s1 = .ok s1
      ∧ Scheduler.shutdownTimes n s = .ok s1 := by
  obtain ⟨m, rfl⟩ : ∃ m, n = m + 1 := ⟨n - 1, by omega⟩
  cases hs : s.stopClosed with
  | true =>
      refine ⟨s, ?_, hs, hs, ?_, ?_⟩
      · simp [Scheduler.Shutdown, hs]
      · simp [Scheduler.Shutdown, hs]
      · exact shutdownTimes_closed s hs (m + 1)
  | false =>
      have h1 : Scheduler.Shutdown s = .ok { s with stopClosed := true } := by
        simp [Scheduler.Shutdown, hs, chanClose]
      refine ⟨{ s with stopClosed := true }, h1, rfl, rfl, ?_, ?_⟩
      · simp [Scheduler.Shutdown]
      · rw [show Scheduler.shutdownTimes (m + 1) s =
            Scheduler.shutdownTimes m { s with stopClosed := true } from by
          simp [Scheduler.shutdownTimes, h1]]
        exact shutdownTimes_closed _ rfl m

/-- Witness for C9: three Shutdown calls on a freshly constructed
scheduler. -/
theorem shutdown_idempotent_witness :
    ∃ s1, Scheduler.Shutdown (Scheduler.New 60000000000) = .ok s1
      ∧ s1.stopClosed = true
      ∧ runObservesStop s1 = true
      ∧ Scheduler.Shutdown s1 = .ok s1
      ∧ Scheduler.shutdownTimes 3 (Scheduler.New 60000000000) = .ok s1 :=
  shutdown_idempotent (Scheduler.New 60000000000) 3 (by decide)

/- ------------------------------------------------------------------ -/
/- API client response handling (internal/wbapi/client.go)             -/
/- ------------------------------------------------------------------ -/

/-- The data envelope of the feedback list response (unnamed/part_001). -/
structure feedbacksListData where
  countUnanswered : Int
  feedbacks : List Feedback
deriving DecidableEq, Repr

/-- Top-level response of GET /feedbacks (unnamed/part_001). -/
structure feedbacksListResp where
  data : feedbacksListData
  error : Bool
  errorText : String
deriving DecidableEq, Repr

/-- Common error envelope of POST /feedbacks/answer (unnamed/part_001). -/
structure genericResponse where
  error : Bool
  errorText : String
deriving DecidableEq, Repr

/-- Client.do (client.go lines 153-173), response-handling part: a
transport error is returned as-is; an HTTP status >= 400 becomes an error;
otherwise the decoded body is returned. The rate-limiter wait and request
construction are orthogonal to the envelope claims and not modelled. -/
def Client.doReq {A : Type} (transportErr : Option String) (status : Nat)
    (body : A) : Except String A :=
  match transportErr with
  | some e => .error e
  | none =>
      if 400 ≤ status then
        .error ("wb api http " ++ toString status)
      else
        .ok body

/-- Client.FetchUnanswered (client.go lines 96-112), decode stage: after a
successful HTTP exchange, an envelope with error=true becomes an error
carrying the envelope errorText; otherwise the feedback list is
returned. -/
def Client.FetchUnanswered (transportErr : Option String) (status : Nat)
    (resp : feedbacksListResp) : Except String (List Feedback) :=
  match Client.doReq transportErr status resp with
  | .error e => .error e
  | .ok r =>
      if r.error then
        .error ("wb api error: " ++ r.errorText)
      else
        .ok r.data.feedbacks

/-- Client.AnswerFeedback (client.go lines 115-125), decode stage. -/
def Client.AnswerFeedback (transportErr : Option String) (status : Nat)
    (resp : genericResponse) : Except String Unit :=
  match Client.doReq transportErr status resp with
  | .error e => .error e
  | .ok r =>
      if r.error then
        .error ("wb api error: " ++ r.errorText)
      else
        .ok ()

/-- C8: an envelope with error=true is a failure even under HTTP 200: both
FetchUnanswered and AnswerFeedback return an error surfacing the envelope
errorText, and FetchUnanswered returns no review list. -/
theorem envelope_error_surfaced (resp : feedbacksListResp)
    (gresp : genericResponse)
    (h1 : resp.error = true) (h2 : gresp.error = true) :
    Client.FetchUnanswered none 200 resp =
      .error ("wb api error: " ++ resp.errorText)
    ∧ (∀ l, Client.FetchUnanswered none 200 resp ≠ .ok l)
    ∧ Client.AnswerFeedback none 200 gresp =
      .error ("wb api error: " ++ gresp.errorText) := by
  have hf : Client.FetchUnanswered none 200 resp =
      .error ("wb api error: " ++ resp.errorText) := by
    simp [Client.FetchUnanswered, Client.doReq, h1]
  refine ⟨hf, ?_, ?_⟩
  · intro l hl
    rw [hf] at hl
    exact Except.noConfusion hl
  · simp [Client.AnswerFeedback, Client.doReq, h2]

/-- Concrete list response with error=true (used by the C8 witness). -/
def respW : feedbacksListResp :=
  { data := { countUnanswered := 0, feedbacks := [] }, error := true,
    errorText := "invalid token" }

/-- Concrete answer response with error=true (used by the C8 witness). -/
def grespW : genericResponse := { error := true, errorText := "invalid token" }

/-- Witness for C8 at a concrete error envelope under HTTP 200. -/
theorem envelope_error_surfaced_witness :
    Client.FetchUnanswered none 200 respW =
      .error ("wb api error: " ++ "invalid token")
    ∧ Client.AnswerFeedback none 200 grespW =
      .error ("wb api error: " ++ "invalid token") :=
  ⟨(envelope_error_surfaced respW grespW rfl rfl).1,
    (envelope_error_surfaced respW grespW rfl rfl).2.2⟩

/- ------------------------------------------------------------------ -/
/- Service constructor (claim C10)                                     -/
/- ------------------------------------------------------------------ -/

/-- C10: with valid templates, Service.New always succeeds for any take:
an in-range take (1..5000) is kept, an out-of-range take (non-positive or
above 5000) is silently clamped to 5000, never rejected. -/
theorem service_new_clamps_take (uid : Int) (bad good : String) (take : Int)
    (hb : ¬ trimSpace bad = "") (hg : ¬ trimSpace good = "") :
    ∃ s, Service.New uid bad good take = .ok s
      ∧ (1 ≤ take → take ≤ 5000 → s.take = take)
      ∧ ((take ≤ 0 ∨ take > 5000) → s.take = 5000) := by
  unfold Service.New NewTemplateEngine
  rw [if_neg (not_or.mpr ⟨hb, hg⟩)]
  refine ⟨_, rfl, ?_, ?_⟩
  · intro hlo hhi
    show (if take ≤ 0 ∨ take > 5000 then (5000 : Int) else take) = take
    rw [if_neg (by omega)]
  · intro hout
    show (if take ≤ 0 ∨ take > 5000 then (5000 : Int) else take) = 5000
    rw [if_pos hout]

/-- Witness for C10 at an in-range take of 123 (and templates that survive
trimming). -/
theorem service_new_clamps_take_witness :
    ∃ s, Service.New 1 ("Sorry!") ("Thanks!") 123 = .ok s
      ∧ (1 ≤ (123 : Int) → (123 : Int) ≤ 5000 → s.take = 123)
      ∧ (((123 : Int) ≤ 0 ∨ (123 : Int) > 5000) → s.take = 5000) :=
  service_new_clamps_take 1 ("Sorry!") ("Thanks!") 123 (by decide) (by decide)

end FeedbackBot
